import Mathlib

/-!
Verification development for the RodeoAI GPU API ingestion pipeline.

The definitions below are a shallow embedding of the Python sources:
`data_processor.py` (parser registry: format dispatch, CSV sub-kind
classification, field coercion, date parsing, free-text extraction) and
`app.py` (the ingestion orchestrator `ingest_historical_data` and the batch
endpoint `ingest_batch`).  The deduplication / triage / review-queue engines
are imported by `app.py` from a module that is not part of the sources here;
the orchestrator only consumes their result dictionaries, so they are
modelled as opaque collaborator functions carried in an `Env` record and all
theorems quantify over their behaviour.

Python conventions mapped to Lean:
* cell values are `PyVal` (None, NaN, str, float/int as `ℚ`);
* raised exceptions are `Except PyErr`;
* dictionaries whose key set varies are structures with `Option` fields
  (`none` = key absent);
* truthiness of the `skip_deduplication` argument (which receives a `bool`
  from the single-file endpoint but an `Optional[str]` from the batch
  endpoint) is `PyFlag.truthy`;
* `datetime.now()` is the `now : String` parameter threaded from `Env`.
-/

namespace Rodeo

/-! ## Basic character/string utilities (Python `in`, `.lower()`, `.endswith`) -/

/-- Does the first char list begin the second one? -/
def chLeads : List Char → List Char → Bool
  | [], _ => true
  | _ :: _, [] => false
  | a :: as, b :: bs => a == b && chLeads as bs

/-- Does the first char list occur contiguously inside the second? -/
def chWithin (n : List Char) : List Char → Bool
  | [] => chLeads n []
  | b :: bs => chLeads n (b :: bs) || chWithin n bs

/-- Python `needle in hay` on strings (substring test). -/
def strContainsSub (needle hay : String) : Bool :=
  chWithin needle.data hay.data

/-- Python `s.lower()`. -/
def strLower (s : String) : String :=
  ⟨s.data.map Char.toLower⟩

/-- Python `s.endswith(suf)`. -/
def strEndsL (s suf : String) : Bool :=
  chLeads suf.data.reverse s.data.reverse

/-! ## Python values and errors -/

/-- A Python cell value as it occurs in the rows handled by the parsers:
`None`, float NaN, a string, or a number (Python int/float, modelled as `ℚ`;
the parsed decimal strings the pipeline handles are exact rationals). -/
inductive PyVal where
  | none
  | nan
  | str (s : String)
  | num (q : ℚ)
deriving DecidableEq

/-- Python `pd.isna(value)`: true exactly for `None` and NaN. -/
def isna : PyVal → Bool
  | .none => true
  | .nan => true
  | .str _ => false
  | .num _ => false

/-- A raised Python exception. -/
inductive PyErr where
  | valueError (msg : String)
  | typeError (msg : String)
  | httpError (code : Nat) (msg : String)
deriving DecidableEq

/-- Python `str(e)` of an exception (the detail string carried to the caller). -/
def errText : PyErr → String
  | .valueError m => m
  | .typeError m => m
  | .httpError _ m => m

/-- Python `str(value)`.  The rendering of numbers is for display only; no claim
compares these strings, they only flow into record fields verbatim. -/
def pyStr : PyVal → String
  | .none => "None"
  | .nan => "nan"
  | .str s => s
  | .num q => if q.den == 1 then toString q.num else toString q.num ++ "/" ++ toString q.den

/-! ## Numeric coercion: `DataProcessor._safe_int` / `_safe_float`

Python `float(value)` applied to the value kinds above: succeeds on numbers
and on float-like strings, raises `ValueError`/`TypeError` otherwise
(`float('nan')` is unreachable behind the `pd.isna` guard and modelled as an
error, matching `int(float('nan'))` which raises). -/

/-- Parse the digits of a char list to a `Nat` (empty or non-digit ⇒ none). -/
def digitsNat? (cs : List Char) : Option Nat :=
  if cs.isEmpty then Option.none
  else if cs.all Char.isDigit then
    Option.some (cs.foldl (fun a c => a * 10 + (c.toNat - 48)) 0)
  else Option.none

/-- Natural value of a digit run (assumes digits; used after `digitsNat?`). -/
def digitsVal (cs : List Char) : Nat :=
  cs.foldl (fun a c => a * 10 + (c.toNat - 48)) 0

/-- The rational value `sgn * intfrac * 10^e / 10^fracLen`, built with a
single `mkRat` over integer arithmetic (kernel-reducible). -/
def floatVal (sgn : Int) (intfrac : Nat) (fracLen : Nat) (e : Int) : ℚ :=
  if 0 ≤ e then mkRat (sgn * intfrac * 10 ^ e.toNat) (10 ^ fracLen)
  else mkRat (sgn * intfrac) (10 ^ fracLen * 10 ^ (-e).toNat)

/-- Parse an optional exponent suffix `e±ddd` (empty input = exponent 0). -/
def parseExp? : List Char → Option Int
  | [] => Option.some 0
  | 'e' :: rest => parseSignedExp? rest
  | 'E' :: rest => parseSignedExp? rest
  | _ => Option.none
where
  parseSignedExp? : List Char → Option Int
    | '+' :: ds => (digitsNat? ds).map (fun n => (n : Int))
    | '-' :: ds => (digitsNat? ds).map (fun n => -(n : Int))
    | ds => (digitsNat? ds).map (fun n => (n : Int))

/-- Parse a float literal body `ddd[.ddd][e±ddd]` (either digit group may
be empty but not both) with the given sign. -/
def parseBody? (sgn : Int) (cs : List Char) : Option ℚ :=
  let ip := cs.takeWhile Char.isDigit
  let rest := cs.dropWhile Char.isDigit
  match rest with
  | '.' :: rest2 =>
    let fp := rest2.takeWhile Char.isDigit
    let rest3 := rest2.dropWhile Char.isDigit
    if ip.isEmpty && fp.isEmpty then Option.none
    else (parseExp? rest3).map (fun e => floatVal sgn (digitsVal (ip ++ fp)) fp.length e)
  | _ =>
    if ip.isEmpty then Option.none
    else (parseExp? rest).map (fun e => floatVal sgn (digitsVal ip) 0 e)

/-- Python `float(s)` on a string: strip surrounding whitespace, optional
sign, decimal literal with optional fraction and exponent. -/
def parseFloat? (s : String) : Option ℚ :=
  let cs := ((s.data.dropWhile Char.isWhitespace).reverse.dropWhile
    Char.isWhitespace).reverse
  match cs with
  | '+' :: rest => parseBody? 1 rest
  | '-' :: rest => parseBody? (-1) rest
  | rest => parseBody? 1 rest

/-- Python `float(value)` on a `PyVal`, with the exceptions it raises. -/
def pyFloat : PyVal → Except PyErr ℚ
  | .str s =>
    match parseFloat? s with
    | Option.some q => .ok q
    | Option.none => .error (.valueError ("could not convert string to float: " ++ s))
  | .num q => .ok q
  | .none => .error (.typeError "float() argument must be a string or a real number, not NoneType")
  | .nan => .error (.valueError "cannot convert float NaN to integer")

/-- Python `int(q)`: truncation toward zero (`num.tdiv den`, the sign of a
rational living in its numerator). -/
def pyTrunc (q : ℚ) : Int :=
  q.num.tdiv (q.den : Int)

/-- Body of `_safe_int` before the catch-all `except` (so the error cases it
can raise stay visible). -/
def safeIntBody (v : PyVal) : Except PyErr (Option Int) :=
  if isna v then .ok Option.none
  else
    match pyFloat v with
    | .ok q => .ok (Option.some (pyTrunc q))
    | .error e => .error e

/-- Source `DataProcessor._safe_int`: the catch-all `except` maps every raised
exception to `None`. -/
def safeInt (v : PyVal) : Option Int :=
  match safeIntBody v with
  | .ok r => r
  | .error _ => Option.none

/-- Body of `_safe_float` before the catch-all `except`. -/
def safeFloatBody (v : PyVal) : Except PyErr (Option ℚ) :=
  if isna v then .ok Option.none
  else
    match pyFloat v with
    | .ok q => .ok (Option.some q)
    | .error e => .error e

/-- Source `DataProcessor._safe_float`. -/
def safeFloat (v : PyVal) : Option ℚ :=
  match safeFloatBody v with
  | .ok r => r
  | .error _ => Option.none

/-! ## Date parsing: `DataProcessor._parse_date`

`datetime.strptime` against the ordered format list
`['%Y-%m-%d', '%m/%d/%Y', '%m-%d-%Y', '%Y/%m/%d']`: `%Y` is exactly four
digits, `%m`/`%d` are one or two digits in range, and the constructed
`datetime` validates the day against the month (leap years included). -/

structure PyDate where
  y : Nat
  m : Nat
  d : Nat
deriving DecidableEq

def isLeap (y : Nat) : Bool :=
  y % 4 == 0 && (y % 100 != 0 || y % 400 == 0)

def daysInMonth (y m : Nat) : Nat :=
  if m == 2 then (if isLeap y then 29 else 28)
  else if m == 4 || m == 6 || m == 9 || m == 11 then 30
  else 31

/-- Split a char list on a separator character. -/
def chSplit (sep : Char) : List Char → List (List Char)
  | [] => [[]]
  | c :: rest =>
    let r := chSplit sep rest
    if c == sep then [] :: r
    else
      match r with
      | [] => [[c]]
      | g :: gs => (c :: g) :: gs

/-- The `%Y` field: exactly four digits, year ≥ 1. -/
def fieldY (cs : List Char) : Option Nat :=
  if cs.length == 4 then
    match digitsNat? cs with
    | Option.some v => if 1 ≤ v then Option.some v else Option.none
    | Option.none => Option.none
  else Option.none

/-- The `%m` / `%d` fields: one or two digits, value in `[1, hi]`. -/
def fieldMD (hi : Nat) (cs : List Char) : Option Nat :=
  if cs.length == 1 || cs.length == 2 then
    match digitsNat? cs with
    | Option.some v => if 1 ≤ v && v ≤ hi then Option.some v else Option.none
    | Option.none => Option.none
  else Option.none

/-- Validate the day against the month (what the `datetime` ctor enforces). -/
def mkDate? (y m d : Nat) : Option PyDate :=
  if d ≤ daysInMonth y m then Option.some ⟨y, m, d⟩ else Option.none

/-- Field order of a format: year-month-day or month-day-year. -/
inductive DateOrder where
  | ymd
  | mdy
deriving DecidableEq

/-- Python `datetime.strptime(s, fmt)` for one of the four formats, given its field
order and separator. -/
def strptimeSep (ord : DateOrder) (sep : Char) (s : String) : Option PyDate :=
  match chSplit sep s.data with
  | [a, b, c] =>
    match ord with
    | .ymd =>
      match fieldY a, fieldMD 12 b, fieldMD 31 c with
      | Option.some y, Option.some m, Option.some d => mkDate? y m d
      | _, _, _ => Option.none
    | .mdy =>
      match fieldMD 12 a, fieldMD 31 b, fieldY c with
      | Option.some m, Option.some d, Option.some y => mkDate? y m d
      | _, _, _ => Option.none
  | _ => Option.none

/-- The ordered format list of `_parse_date`. -/
def dateFormats : List (DateOrder × Char) :=
  [(.ymd, '-'), (.mdy, '/'), (.mdy, '-'), (.ymd, '/')]

/-- The `for fmt in [...]` loop: first format that parses wins. -/
def tryDateFormats : List (DateOrder × Char) → String → Option PyDate
  | [], _ => Option.none
  | f :: fs, s =>
    match strptimeSep f.1 f.2 s with
    | Option.some d => Option.some d
    | Option.none => tryDateFormats fs s

def pad2 (n : Nat) : String := if n < 10 then "0" ++ toString n else toString n

def pad4 (n : Nat) : String :=
  if n < 10 then "000" ++ toString n
  else if n < 100 then "00" ++ toString n
  else if n < 1000 then "0" ++ toString n
  else toString n

/-- Python `datetime(...).isoformat()` of a parsed (midnight) date. -/
def isoOfDate (d : PyDate) : String :=
  pad4 d.y ++ "-" ++ pad2 d.m ++ "-" ++ pad2 d.d ++ "T00:00:00"

/-- Source `DataProcessor._parse_date`.  Here `now` is `datetime.now().isoformat()`.
Note the asymmetry taken verbatim from the source: the `pd.isna` early
return yields `now` with no trailing `'Z'`, while every other fallback and
the successful parse append `'Z'`. -/
def parseDate (now : String) (v : PyVal) : String :=
  if isna v then now
  else
    match v with
    | .str s =>
      match tryDateFormats dateFormats s with
      | Option.some d => isoOfDate d ++ "Z"
      | Option.none => now ++ "Z"
    | _ => now ++ "Z"

/-! ## Tabular data: rows, frames, record schemas -/

/-- A pandas row as the parsers see it: an association of column name to
cell value (`row.get(k, default)` returns the default when the key is
absent). -/
abbrev Row := List (String × PyVal)

/-- Python `row.get(k, d)`. -/
def rowGet (r : Row) (k : String) (d : PyVal) : PyVal :=
  match r.find? (fun kv => kv.1 == k) with
  | Option.some kv => kv.2
  | Option.none => d

/-- A pandas DataFrame: its column list and its rows. -/
structure DataFrame where
  columns : List String
  rows : List Row
deriving DecidableEq

structure EventRec where
  name : String
  location : String
  eventDate : String
  eventType : String
  prizePool : Option ℚ := Option.none
deriving DecidableEq

structure RiderRec where
  name : String
  rank : Option Int
  winRate : Option ℚ
deriving DecidableEq

structure ResultRec where
  eventName : String
  riderName : String
  actualValue : String
  score : Option ℚ
  placement : Option Int
deriving DecidableEq

structure PredictionFields where
  predictionType : String
  predictedValue : String
  confidence : Option ℚ
  odds : Option ℚ
  modelVersion : String
  analysis : String
deriving DecidableEq

structure PredictionRec where
  event : EventRec
  rider : RiderRec
  prediction : PredictionFields
deriving DecidableEq

/-- The heterogeneous dictionary every `DataProcessor` parser returns.
Each `Option` field is `none` exactly when the Python dict lacks the key. -/
structure ProcessedDict where
  events : Option (List EventRec) := Option.none
  riders : Option (List RiderRec) := Option.none
  predictions : Option (List PredictionRec) := Option.none
  results : Option (List ResultRec) := Option.none
  source : Option String := Option.none
  rawData : Option (List Row) := Option.none
  columns : Option (List String) := Option.none
  rowCount : Option Nat := Option.none
  needsManualMapping : Bool := false
  extractedText : Option String := Option.none
  detectedDates : Option (List String) := Option.none
  detectedScores : Option (List String) := Option.none
  needsReview : Bool := false
deriving DecidableEq

/-! ## CSV sub-kind detection (`_is_results_csv` etc.) -/

def resultIndicators : List String := ["result", "score", "placement", "winner", "actual"]
def predIndicators : List String := ["prediction", "confidence", "predicted", "odds"]
def eventIndicators : List String := ["event", "competition", "rodeo", "date", "location"]

/-- Python `any(ind in col.lower() for ind in indicators)`. -/
def colHasAny (inds : List String) (c : String) : Bool :=
  inds.any (fun i => strContainsSub i (strLower c))

def isResultsCsv (df : DataFrame) : Bool :=
  df.columns.any (colHasAny resultIndicators)

def isPredictionsCsv (df : DataFrame) : Bool :=
  df.columns.any (colHasAny predIndicators)

def isEventsCsv (df : DataFrame) : Bool :=
  df.columns.any (colHasAny eventIndicators)

/-! ## Row extraction helpers of the three typed CSV parsers -/

/-- Event dict built by `_parse_results_csv` / `_parse_predictions_csv`. -/
def eventOfResultsRow (now : String) (r : Row) : EventRec :=
  { name := pyStr (rowGet r "event_name" (rowGet r "event" (.str "Unknown Event")))
    location := pyStr (rowGet r "location" (.str "Unknown"))
    eventDate := parseDate now (rowGet r "date" (rowGet r "event_date" (.str "")))
    eventType := pyStr (rowGet r "event_type" (rowGet r "discipline" (.str "unknown"))) }

/-- Rider dict built by `_parse_results_csv` / `_parse_predictions_csv`. -/
def riderOfRow (r : Row) : RiderRec :=
  { name := pyStr (rowGet r "rider_name" (rowGet r "rider" (rowGet r "name" (.str "Unknown"))))
    rank := safeInt (rowGet r "rank" .none)
    winRate := safeFloat (rowGet r "win_rate" .none) }

def resultOfRow (now : String) (r : Row) : ResultRec :=
  { eventName := (eventOfResultsRow now r).name
    riderName := (riderOfRow r).name
    actualValue := pyStr (rowGet r "result" (rowGet r "outcome" (.str "Unknown")))
    score := safeFloat (rowGet r "score" .none)
    placement := safeInt (rowGet r "placement" (rowGet r "place" .none)) }

def predictionOfRow (now : String) (r : Row) : PredictionRec :=
  { event := eventOfResultsRow now r
    rider := riderOfRow r
    prediction :=
      { predictionType := pyStr (rowGet r "prediction_type" (.str "winner"))
        predictedValue := pyStr (rowGet r "predicted_value" (rowGet r "prediction" (.str "Unknown")))
        confidence := safeFloat (rowGet r "confidence" (.num 0))
        odds := safeFloat (rowGet r "odds" .none)
        modelVersion := pyStr (rowGet r "model_version" (.str "historical-import"))
        analysis := pyStr (rowGet r "analysis" (.str "")) } }

/-- Event dict built by `_parse_events_csv` (different key preferences and
the extra `prize_pool` field). -/
def eventOfEventsRow (now : String) (r : Row) : EventRec :=
  { name := pyStr (rowGet r "name" (rowGet r "event_name" (.str "Unknown")))
    location := pyStr (rowGet r "location" (.str "Unknown"))
    eventDate := parseDate now (rowGet r "date" (rowGet r "event_date" (.str "")))
    eventType := pyStr (rowGet r "event_type" (rowGet r "type" (.str "unknown")))
    prizePool := safeFloat (rowGet r "prize_pool" .none) }

/-! ## The four tabular parsers and `process_csv` dispatch -/

def parseResultsCsv (now : String) (df : DataFrame) (fn : String) : ProcessedDict :=
  { events := Option.some (df.rows.map (eventOfResultsRow now))
    riders := Option.some (df.rows.map riderOfRow)
    results := Option.some (df.rows.map (resultOfRow now))
    source := Option.some fn }

def parsePredictionsCsv (now : String) (df : DataFrame) (fn : String) : ProcessedDict :=
  { predictions := Option.some (df.rows.map (predictionOfRow now))
    source := Option.some fn }

def parseEventsCsv (now : String) (df : DataFrame) (fn : String) : ProcessedDict :=
  { events := Option.some (df.rows.map (eventOfEventsRow now))
    source := Option.some fn }

def parseGenericCsv (df : DataFrame) (fn : String) : ProcessedDict :=
  { rawData := Option.some df.rows
    columns := Option.some df.columns
    rowCount := Option.some df.rows.length
    source := Option.some fn
    needsManualMapping := true }

/-- Source `DataProcessor.process_csv` after `pd.read_csv` succeeded: sub-kind
classification by column vocabulary, in source order. -/
def processCsv (now : String) (df : DataFrame) (fn : String) : ProcessedDict :=
  if isResultsCsv df then parseResultsCsv now df fn
  else if isPredictionsCsv df then parsePredictionsCsv now df fn
  else if isEventsCsv df then parseEventsCsv now df fn
  else parseGenericCsv df fn

/-! ## `process_excel`: per-sheet parse and merge -/

/-- The `all_data` accumulator dict of `process_excel`. -/
structure AllData where
  events : List EventRec := []
  riders : List RiderRec := []
  predictions : List PredictionRec := []
  results : List ResultRec := []
deriving DecidableEq

/-- Python `all_data[key].extend(sheet_data[key])` guarded by `key in sheet_data`. -/
def mergeKind {α : Type} (acc : List α) (v : Option (List α)) : List α :=
  match v with
  | Option.some l => acc ++ l
  | Option.none => acc

/-- One iteration of the sheet loop in `process_excel`: note the source
parses every sheet with `_parse_generic_csv`, not with the `process_csv`
classification. -/
def excelStep (fn : String) (acc : AllData) (sheet : String × DataFrame) : AllData :=
  let sd := parseGenericCsv sheet.2 (fn ++ ":" ++ sheet.1)
  { events := mergeKind acc.events sd.events
    riders := mergeKind acc.riders sd.riders
    predictions := mergeKind acc.predictions sd.predictions
    results := mergeKind acc.results sd.results }

/-- Source `DataProcessor.process_excel` after `pd.ExcelFile` produced the sheets. -/
def processExcelSheets (sheets : List (String × DataFrame)) (fn : String) : ProcessedDict :=
  let all := sheets.foldl (excelStep fn) {}
  { events := Option.some all.events
    riders := Option.some all.riders
    predictions := Option.some all.predictions
    results := Option.some all.results }

/-- Modelled from the spec sentence under test in claim C5 only, NOT from
the source: each sub-sheet parsed with the full Tabular sub-kind
classification of a standalone tabular file (`process_csv`), per-kind
sequences concatenated.  Used solely to compare with `processExcelSheets`. -/
def processExcelSpec (now : String) (sheets : List (String × DataFrame)) (fn : String) :
    ProcessedDict :=
  let all := sheets.foldl (fun acc sheet =>
    let sd := processCsv now sheet.2 (fn ++ ":" ++ sheet.1)
    { events := mergeKind acc.events sd.events
      riders := mergeKind acc.riders sd.riders
      predictions := mergeKind acc.predictions sd.predictions
      results := mergeKind acc.results sd.results : AllData }) {}
  { events := Option.some all.events
    riders := Option.some all.riders
    predictions := Option.some all.predictions
    results := Option.some all.results }

/-! ## Free-text pattern extraction (`_parse_rodeo_data`)

The regexes `\d{1,2}/\d{1,2}/\d{2,4}` and `\b\d{1,3}\.\d{1,2}\b` are
modelled by leftmost, non-overlapping scanners with the greedy
backtracking order of `re.findall`. -/

/-- Exactly `n` leading digits, returning them and the remainder. -/
def takeDigits (n : Nat) (l : List Char) : Option (List Char × List Char) :=
  let pre := l.take n
  if pre.length == n && pre.all Char.isDigit then Option.some (pre, l.drop n)
  else Option.none

/-- Greedy backtracking order of `\d{1,2}/\d{1,2}/\d{2,4}`. -/
def dateCombos : List (Nat × Nat × Nat) :=
  [(2,2,4),(2,2,3),(2,2,2),(2,1,4),(2,1,3),(2,1,2),
   (1,2,4),(1,2,3),(1,2,2),(1,1,4),(1,1,3),(1,1,2)]

def tryDateCombo (l : List Char) : Nat × Nat × Nat → Option (List Char)
  | (a, b, c) =>
    match takeDigits a l with
    | Option.none => Option.none
    | Option.some (d1, r1) =>
      match r1 with
      | '/' :: r2 =>
        match takeDigits b r2 with
        | Option.none => Option.none
        | Option.some (d2, r3) =>
          match r3 with
          | '/' :: r4 =>
            match takeDigits c r4 with
            | Option.none => Option.none
            | Option.some (d3, _) => Option.some (d1 ++ '/' :: d2 ++ '/' :: d3)
          | _ => Option.none
      | _ => Option.none

def matchDateAt (l : List Char) : Option (List Char) :=
  dateCombos.findSome? (tryDateCombo l)

/-- Leftmost non-overlapping scan; the fuel starts at the list length and
each step consumes at least one character. -/
def scanDates : Nat → List Char → List String
  | 0, _ => []
  | _ + 1, [] => []
  | fuel + 1, c :: rest =>
    match matchDateAt (c :: rest) with
    | Option.some tok => String.mk tok :: scanDates fuel ((c :: rest).drop tok.length)
    | Option.none => scanDates fuel rest

def findDates (s : String) : List String := scanDates s.data.length s.data

def isWordChar (c : Char) : Bool := c.isAlphanum || c == '_'

/-- Greedy backtracking order of `\d{1,3}\.\d{1,2}`. -/
def scoreCombos : List (Nat × Nat) := [(3,2),(3,1),(2,2),(2,1),(1,2),(1,1)]

/-- Trailing `\b`: end of input or a non-word character follows. -/
def boundaryOk : List Char → Bool
  | [] => true
  | c :: _ => !(isWordChar c)

def tryScoreCombo (l : List Char) : Nat × Nat → Option (List Char × List Char)
  | (a, b) =>
    match takeDigits a l with
    | Option.none => Option.none
    | Option.some (d1, r1) =>
      match r1 with
      | '.' :: r2 =>
        match takeDigits b r2 with
        | Option.none => Option.none
        | Option.some (d2, rest) =>
          if boundaryOk rest then Option.some (d1 ++ '.' :: d2, rest) else Option.none
      | _ => Option.none

/-- Score scan; `prev` carries the previous character for the leading `\b`. -/
def scanScores : Nat → Option Char → List Char → List String
  | 0, _, _ => []
  | _ + 1, _, [] => []
  | fuel + 1, prev, c :: rest =>
    let atBoundary : Bool :=
      match prev with
      | Option.none => true
      | Option.some p => !(isWordChar p)
    match (if atBoundary then scoreCombos.findSome? (tryScoreCombo (c :: rest)) else Option.none) with
    | Option.some (tok, remaining) =>
      String.mk tok :: scanScores fuel (Option.some (tok.getLastD '0')) remaining
    | Option.none => scanScores fuel (Option.some c) rest

def findScores (s : String) : List String := scanScores s.data.length Option.none s.data

/-- Source `DataProcessor._parse_rodeo_data`. -/
def parseRodeoData (text : String) (fn : String) : ProcessedDict :=
  { extractedText := Option.some ⟨text.data.take 500⟩
    detectedDates := Option.some (findDates text)
    detectedScores := Option.some (findScores text)
    source := Option.some fn
    needsReview := true }

/-- Placeholder text of `_extract_pdf_text_placeholder`. -/
def pdfPlaceholderText (content : List Nat) : String :=
  "PDF content extracted (placeholder) - " ++ toString content.length ++ " bytes"

/-- Placeholder text of `_extract_image_text_placeholder`. -/
def imagePlaceholderText (content : List Nat) : String :=
  "Image OCR text (placeholder) - " ++ toString content.length ++ " bytes"

/-! ## Format dispatch (`process_file`) -/

inductive ParserKind where
  | pdf
  | csv
  | excel
  | image
  | text
deriving DecidableEq

/-- The chained conditionals of `DataProcessor.process_file`, in source
order.  Each branch tests the declared type by substring OR the filename by
extension (the image branch only tests the declared type). -/
def dispatch (fn ft : String) : Option ParserKind :=
  if strContainsSub "pdf" (strLower ft) || strEndsL fn ".pdf" then Option.some .pdf
  else if strContainsSub "csv" (strLower ft) || strEndsL fn ".csv" then Option.some .csv
  else if strContainsSub "excel" (strLower ft) || (strEndsL fn ".xlsx" || strEndsL fn ".xls") then
    Option.some .excel
  else if strContainsSub "jpg" (strLower ft) || strContainsSub "jpeg" (strLower ft) ||
      strContainsSub "png" (strLower ft) then Option.some .image
  else if strContainsSub "text" (strLower ft) || strEndsL fn ".txt" then Option.some .text
  else Option.none

/-- Declared-media-type half of one branch's condition. -/
def typeMatches : ParserKind → String → Bool
  | .pdf, ft => strContainsSub "pdf" (strLower ft)
  | .csv, ft => strContainsSub "csv" (strLower ft)
  | .excel, ft => strContainsSub "excel" (strLower ft)
  | .image, ft =>
    strContainsSub "jpg" (strLower ft) || strContainsSub "jpeg" (strLower ft) ||
      strContainsSub "png" (strLower ft)
  | .text, ft => strContainsSub "text" (strLower ft)

/-- Filename-extension half of one branch's condition. -/
def extMatches : ParserKind → String → Bool
  | .pdf, fn => strEndsL fn ".pdf"
  | .csv, fn => strEndsL fn ".csv"
  | .excel, fn => strEndsL fn ".xlsx" || strEndsL fn ".xls"
  | .image, _ => false
  | .text, fn => strEndsL fn ".txt"

def fmtMatches (k : ParserKind) (fn ft : String) : Bool :=
  typeMatches k ft || extMatches k fn

/-- The registered formats in the order the chain tests them. -/
def parserRegistry : List ParserKind := [.pdf, .csv, .excel, .image, .text]

/-- Modelled from the spec sentence under test in claim C6 only, NOT from
the source: a declared-type match across all registered formats takes
precedence, and the filename extension is consulted only when no declared
type matches.  Used solely to compare with `dispatch`. -/
def dispatchSpec (fn ft : String) : Option ParserKind :=
  match parserRegistry.find? (fun k => typeMatches k ft) with
  | Option.some k => Option.some k
  | Option.none => parserRegistry.find? (fun k => extMatches k fn)

/-! ## Orchestrator data model (`app.py`) -/

/-- Result dict of `check_file_duplicate` / `check_data_duplicate`
(`hash` accessed via `.get("hash", "unknown")`, so optional). -/
structure DedupResult where
  isDuplicate : Bool
  hash : Option String := Option.none
deriving DecidableEq

/-- Assessment dict of the triage engine.  Only `verdict` and `action` are
indexed directly by the orchestrator; the remaining keys are read with
`.get(..., default)` and therefore optional. -/
structure Assessment where
  verdict : String
  action : String
  relevanceScore : Option ℚ := Option.none
  confidence : Option ℚ := Option.none
  reasons : List String := []
  qualityScore : Option ℚ := Option.none
  issues : List String := []
  warnings : List String := []
deriving DecidableEq

/-- Entry appended by `review_queue.add_to_review` (filename, reason,
content hash; the engine lives outside these sources, spec §4.4). -/
structure ReviewEntry where
  filename : String
  reason : String
  fileHash : String
deriving DecidableEq

/-- A per-record push outcome dict appended to `push_results`. -/
structure PushOutcome where
  type : String
  status : String
  id : Option String := Option.none
  error : Option String := Option.none
deriving DecidableEq

/-- The value landing in the `skip_deduplication` parameter: the single-file
endpoint passes a `bool`; the batch endpoint passes its `Optional[str]`
API-key header positionally.  `truthy` is Python truthiness. -/
inductive PyFlag where
  | bool (b : Bool)
  | none
  | str (s : String)
deriving DecidableEq

def PyFlag.truthy : PyFlag → Bool
  | .bool b => b
  | .none => false
  | .str s => !(s == "")

/-- Trace of which engine checks a pipeline run consulted. -/
inductive EngineCall where
  | fileDedup
  | triage
  | dataDedup
  | quality
deriving DecidableEq

/-- The collaborators of the orchestrator.  `readCsv` / `readExcel` /
`decodeUtf8` stand for `pd.read_csv` / `pd.ExcelFile` / `bytes.decode`;
the dedup/triage engines come from the `deduplication` module that is not
among these sources, so their behaviour is a parameter.  `gpuApiKey` is the
`GPU_API_KEY` environment value, `now` is `datetime.now().isoformat()`. -/
structure Env where
  gpuApiKey : String
  now : String
  readCsv : List Nat → Except PyErr DataFrame
  readExcel : List Nat → Except PyErr (List (String × DataFrame))
  decodeUtf8 : List Nat → Except PyErr String
  checkFileDuplicate : List Nat → String → DedupResult
  assessFileRelevance : String → List Nat → String → Assessment
  checkDataDuplicate : ProcessedDict → String → DedupResult
  assessDataQuality : ProcessedDict → String → Assessment
  pushPrediction : PredictionRec → Except String (Option String)
  pushResult : ResultRec → Except String (Option String)

/-- Source `DataProcessor.process_file`: dispatch then the matching extractor;
no match raises `ValueError("Unsupported file type: ...")`. -/
def processFile (env : Env) (content : List Nat) (fn ft : String) :
    Except PyErr ProcessedDict :=
  match dispatch fn ft with
  | Option.some .pdf => .ok (parseRodeoData (pdfPlaceholderText content) fn)
  | Option.some .csv =>
    match env.readCsv content with
    | .ok df => .ok (processCsv env.now df fn)
    | .error e => .error e
  | Option.some .excel =>
    match env.readExcel content with
    | .ok sheets => .ok (processExcelSheets sheets fn)
    | .error e => .error e
  | Option.some .image => .ok (parseRodeoData (imagePlaceholderText content) fn)
  | Option.some .text =>
    match env.decodeUtf8 content with
    | .ok t => .ok (parseRodeoData t fn)
    | .error e => .error e
  | Option.none => .error (.valueError ("Unsupported file type: " ++ ft))

/-! ## The single-file pipeline `ingest_historical_data` -/

/-- STEP 1 result: `{"is_duplicate": False}` when skipped, else the engine. -/
def dedupResultOf (env : Env) (content : List Nat) (fn : String) (skipDedup : PyFlag) :
    DedupResult :=
  if skipDedup.truthy then { isDuplicate := false } else env.checkFileDuplicate content fn

/-- STEP 2 result: `{"verdict": "relevant", "action": "process"}` when
skipped, else the engine. -/
def triageResultOf (env : Env) (fn : String) (content : List Nat) (ft : String)
    (skipTriage : Bool) : Assessment :=
  if skipTriage then { verdict := "relevant", action := "process" }
  else env.assessFileRelevance fn content ft

/-- STEP 4 result (guarded by `not skip_deduplication and not
dedup_result["is_duplicate"]`). -/
def dataDedupResultOf (env : Env) (pd : ProcessedDict) (fn : String) (skipDedup : PyFlag)
    (fileDup : Bool) : DedupResult :=
  if !skipDedup.truthy && !fileDup then env.checkDataDuplicate pd fn
  else { isDuplicate := false }

/-- STEP 5 result: `{"verdict": "good", "action": "process"}` when skipped. -/
def qualityResultOf (env : Env) (pd : ProcessedDict) (fn : String) (skipTriage : Bool) :
    Assessment :=
  if skipTriage then { verdict := "good", action := "process" }
  else env.assessDataQuality pd fn

def fileDedupCalls (skipDedup : PyFlag) : List EngineCall :=
  if skipDedup.truthy then [] else [.fileDedup]

def triageCalls (skipTriage : Bool) : List EngineCall :=
  if skipTriage then [] else [.triage]

def dataDedupCalls (skipDedup : PyFlag) (fileDup : Bool) : List EngineCall :=
  if !skipDedup.truthy && !fileDup then [.dataDedup] else []

def qualityCalls (skipTriage : Bool) : List EngineCall :=
  if skipTriage then [] else [.quality]

/-- Python `dedup_result.get("hash", "unknown")` used for every review entry. -/
def entryHash (env : Env) (content : List Nat) (fn : String) (skipDedup : PyFlag) : String :=
  (dedupResultOf env content fn skipDedup).hash.getD "unknown"

def triageRejectEntry (env : Env) (content : List Nat) (fn : String) (skipDedup : PyFlag) :
    ReviewEntry :=
  ⟨fn, "File appears irrelevant to rodeo data", entryHash env content fn skipDedup⟩

def qualityRejectEntry (env : Env) (content : List Nat) (fn : String) (skipDedup : PyFlag) :
    ReviewEntry :=
  ⟨fn, "Poor data quality", entryHash env content fn skipDedup⟩

def needsReviewEntry (env : Env) (content : List Nat) (fn : String) (skipDedup : PyFlag) :
    ReviewEntry :=
  ⟨fn, "Uncertain quality or relevance - needs manual review", entryHash env content fn skipDedup⟩

/-- The per-record push block of STEP 6: one outcome entry per prediction
record and per result record, errors recovered individually. -/
def mkPredOutcome (env : Env) (p : PredictionRec) : PushOutcome :=
  match env.pushPrediction p with
  | .ok pid => { type := "prediction", status := "success", id := pid }
  | .error e => { type := "prediction", status := "error", error := Option.some e }

def mkResOutcome (env : Env) (r : ResultRec) : PushOutcome :=
  match env.pushResult r with
  | .ok rid => { type := "result", status := "success", id := rid }
  | .error e => { type := "result", status := "error", error := Option.some e }

def pushAll (env : Env) (pd : ProcessedDict) : List PushOutcome :=
  (match pd.predictions with
   | Option.some ps => ps.map (mkPredOutcome env)
   | Option.none => []) ++
  (match pd.results with
   | Option.some rs => rs.map (mkResOutcome env)
   | Option.none => [])

/-- The final-status derivation at the end of `ingest_historical_data`. -/
def finalStatus (triageAction qualityAction : String) (autoPush : Bool) : String :=
  if qualityAction == "review" || triageAction == "review" then "needs_review"
  else if qualityAction == "process" && autoPush then "success"
  else "processed"

/-- The full success-path response dict of `ingest_historical_data`. -/
structure FinalResponse where
  status : String
  filename : String
  fileSize : Nat
  fileDuplicate : Bool
  dataDuplicate : Bool
  triageVerdict : String
  triageConfidence : Option ℚ
  triageReasons : List String
  qualityVerdict : String
  qualityScore : Option ℚ
  qualityIssues : List String
  qualityWarnings : List String
  eventsCount : Nat
  ridersCount : Nat
  predictionsCount : Nat
  resultsCount : Nat
  autoPushEnabled : Bool
  pushResults : Option (List PushOutcome)
  actionTaken : String
  reviewQueueId : Option Nat
deriving DecidableEq

/-- The five distinct return sites of `ingest_historical_data`, each with
the fields its dict carries. -/
inductive Response where
  | duplicateFile (filename : String) (fileSize : Nat) (dup : DedupResult)
  | rejectedTriage (filename : String) (fileSize : Nat) (triage : Assessment)
      (reviewQueueId : Nat)
  | duplicateData (filename : String) (fileSize : Nat) (dup : DedupResult)
  | rejectedQuality (filename : String) (fileSize : Nat) (quality : Assessment)
      (reviewQueueId : Nat)
  | final (r : FinalResponse)
deriving DecidableEq

/-- The `"status"` field of each return dict. -/
def respStatus : Response → String
  | .duplicateFile _ _ _ => "duplicate"
  | .rejectedTriage _ _ _ _ => "rejected"
  | .duplicateData _ _ _ => "duplicate"
  | .rejectedQuality _ _ _ _ => "rejected"
  | .final r => r.status

/-- One pipeline run: its result (or raised error), the review queue after
the run, and the trace of engine checks consulted. -/
structure RunOut where
  result : Except PyErr Response
  queue : List ReviewEntry
  calls : List EngineCall

/-- The end of the success path (STEP 5 review routing, STEP 6 pushes, final
status derivation and response assembly). -/
def finalOut (env : Env) (content : List Nat) (fn ft : String) (autoPush : Bool)
    (skipDedup : PyFlag) (skipTriage : Bool) (queue : List ReviewEntry)
    (pd : ProcessedDict) : RunOut :=
  let ta := (triageResultOf env fn content ft skipTriage).action
  let qa := (qualityResultOf env pd fn skipTriage).action
  let queue1 :=
    if qa == "review" || ta == "review" then
      queue ++ [needsReviewEntry env content fn skipDedup]
    else queue
  let pushResults := if autoPush && qa == "process" then pushAll env pd else []
  let status := finalStatus ta qa autoPush
  ⟨.ok (.final
      { status := status
        filename := fn
        fileSize := content.length
        fileDuplicate := (dedupResultOf env content fn skipDedup).isDuplicate
        dataDuplicate :=
          (dataDedupResultOf env pd fn skipDedup
            (dedupResultOf env content fn skipDedup).isDuplicate).isDuplicate
        triageVerdict := (triageResultOf env fn content ft skipTriage).verdict
        triageConfidence := (triageResultOf env fn content ft skipTriage).confidence
        triageReasons := (triageResultOf env fn content ft skipTriage).reasons
        qualityVerdict := (qualityResultOf env pd fn skipTriage).verdict
        qualityScore := (qualityResultOf env pd fn skipTriage).qualityScore
        qualityIssues := (qualityResultOf env pd fn skipTriage).issues
        qualityWarnings := (qualityResultOf env pd fn skipTriage).warnings
        eventsCount := (pd.events.getD []).length
        ridersCount := (pd.riders.getD []).length
        predictionsCount := (pd.predictions.getD []).length
        resultsCount := (pd.results.getD []).length
        autoPushEnabled := autoPush
        pushResults := if autoPush then Option.some pushResults else Option.none
        actionTaken := qa
        reviewQueueId :=
          if status == "needs_review" then Option.some (queue1.length - 1)
          else Option.none }),
    queue1,
    fileDedupCalls skipDedup ++ triageCalls skipTriage ++
      dataDedupCalls skipDedup (dedupResultOf env content fn skipDedup).isDuplicate ++
      qualityCalls skipTriage⟩

/-- The body of the `try` block of `ingest_historical_data` (STEPS 1-6 with
their early returns; raised errors propagate as `.error`). -/
def ingestBody (env : Env) (content : List Nat) (fn ft : String) (autoPush : Bool)
    (skipDedup : PyFlag) (skipTriage : Bool) (queue : List ReviewEntry) : RunOut :=
  if (dedupResultOf env content fn skipDedup).isDuplicate then
    ⟨.ok (.duplicateFile fn content.length (dedupResultOf env content fn skipDedup)),
      queue, fileDedupCalls skipDedup⟩
  else if (triageResultOf env fn content ft skipTriage).action == "reject" then
    ⟨.ok (.rejectedTriage fn content.length (triageResultOf env fn content ft skipTriage)
        ((queue ++ [triageRejectEntry env content fn skipDedup]).length - 1)),
      queue ++ [triageRejectEntry env content fn skipDedup],
      fileDedupCalls skipDedup ++ triageCalls skipTriage⟩
  else
    match processFile env content fn ft with
    | .error e => ⟨.error e, queue, fileDedupCalls skipDedup ++ triageCalls skipTriage⟩
    | .ok pd =>
      if (dataDedupResultOf env pd fn skipDedup
          (dedupResultOf env content fn skipDedup).isDuplicate).isDuplicate then
        ⟨.ok (.duplicateData fn content.length
            (dataDedupResultOf env pd fn skipDedup
              (dedupResultOf env content fn skipDedup).isDuplicate)),
          queue,
          fileDedupCalls skipDedup ++ triageCalls skipTriage ++
            dataDedupCalls skipDedup (dedupResultOf env content fn skipDedup).isDuplicate⟩
      else if (qualityResultOf env pd fn skipTriage).action == "reject" then
        ⟨.ok (.rejectedQuality fn content.length (qualityResultOf env pd fn skipTriage)
            ((queue ++ [qualityRejectEntry env content fn skipDedup]).length - 1)),
          queue ++ [qualityRejectEntry env content fn skipDedup],
          fileDedupCalls skipDedup ++ triageCalls skipTriage ++
            dataDedupCalls skipDedup (dedupResultOf env content fn skipDedup).isDuplicate ++
            qualityCalls skipTriage⟩
      else finalOut env content fn ft autoPush skipDedup skipTriage queue pd

/-- Endpoint `ingest_historical_data`: the API-key check precedes the `try` block and
raises 401; any error inside the body is re-raised as HTTP 500 with the
original message. -/
def ingest (env : Env) (content : List Nat) (fn ft : String) (autoPush : Bool)
    (skipDedup : PyFlag) (skipTriage : Bool) (xApiKey : Option String)
    (queue : List ReviewEntry) : RunOut :=
  if env.gpuApiKey ≠ "" ∧ xApiKey ≠ Option.some env.gpuApiKey then
    ⟨.error (.httpError 401 "Unauthorized"), queue, []⟩
  else
    let out := ingestBody env content fn ft autoPush skipDedup skipTriage queue
    match out.result with
    | .error e => ⟨.error (.httpError 500 (errText e)), out.queue, out.calls⟩
    | .ok _ => out

/-! ## The batch endpoint `ingest_batch` -/

/-- One uploaded file: bytes, filename, declared media type. -/
structure FileU where
  content : List Nat
  filename : String
  contentType : String

/-- One element of the batch's `results` list: the loop appends a
`status="success"` wrapper for every non-raising call, and a
`status="error"` entry from the per-file `except` clause. -/
inductive BatchEntry where
  | success (filename : String) (details : Response)
  | failure (filename : String) (error : String)
deriving DecidableEq

/-- The `"status"` field of a batch entry. -/
def entryTag : BatchEntry → String
  | .success _ _ => "success"
  | .failure _ _ => "error"

structure Totals where
  events : Nat := 0
  riders : Nat := 0
  predictions : Nat := 0
  results : Nat := 0
deriving DecidableEq

structure BatchAcc where
  entries : List BatchEntry
  totals : Totals
  queue : List ReviewEntry
  calls : List EngineCall

structure BatchResponse where
  status : String
  filesProcessed : Nat
  totals : Totals
  fileResults : List BatchEntry
deriving DecidableEq

structure BatchOut where
  result : Except PyErr BatchResponse
  queue : List ReviewEntry
  calls : List EngineCall

/-- The batch loop forwards its `Optional[str]` API-key header positionally
into the `skip_deduplication` parameter of the single-file pipeline. -/
def skipFlagOf : Option String → PyFlag
  | Option.none => PyFlag.none
  | Option.some s => PyFlag.str s

/-- One iteration of the `for file in files` loop.  The inner call
`ingest_historical_data(file, auto_push, x_api_key)` leaves `skip_triage` at
its default `False` and does not forward the API key (the parameter keeps
its FastAPI `Header(None)` default, which never equals a non-empty
configured key; modelled as `none`).  After appending the success wrapper
the loop reads `result["processed_data"]`, which raises `KeyError` for the
duplicate/rejected return dicts; the `except` clause then appends a second,
error entry for the same file. -/
def batchStep (env : Env) (autoPush : Bool) (xApiKey : Option String)
    (acc : BatchAcc) (f : FileU) : BatchAcc :=
  let out := ingest env f.content f.filename f.contentType autoPush
    (skipFlagOf xApiKey) false Option.none acc.queue
  let base : BatchAcc := { acc with queue := out.queue, calls := acc.calls ++ out.calls }
  match out.result with
  | .error e =>
    { base with entries := acc.entries ++ [.failure f.filename (errText e)] }
  | .ok r =>
    match r with
    | .final fr =>
      { base with
          entries := acc.entries ++ [.success f.filename (.final fr)]
          totals :=
            { events := acc.totals.events + fr.eventsCount
              riders := acc.totals.riders + fr.ridersCount
              predictions := acc.totals.predictions + fr.predictionsCount
              results := acc.totals.results + fr.resultsCount } }
    | other =>
      { base with
          entries := (acc.entries ++ [.success f.filename other]) ++
            [.failure f.filename "'processed_data'"] }

/-- Endpoint `ingest_batch`. -/
def ingestBatch (env : Env) (files : List FileU) (autoPush : Bool)
    (xApiKey : Option String) (queue : List ReviewEntry) : BatchOut :=
  if env.gpuApiKey ≠ "" ∧ xApiKey ≠ Option.some env.gpuApiKey then
    ⟨.error (.httpError 401 "Unauthorized"), queue, []⟩
  else
    let acc := files.foldl (batchStep env autoPush xApiKey)
      ⟨[], {}, queue, []⟩
    ⟨.ok
        { status := "success"
          filesProcessed := files.length
          totals := acc.totals
          fileResults := acc.entries },
      acc.queue, acc.calls⟩

/-! ## Projections used by closed witness statements -/

/-- The `"status"` of a run's response, when the run returned one. -/
def statusOfRun (o : RunOut) : Option String :=
  match o.result with
  | .ok r => Option.some (respStatus r)
  | .error _ => Option.none

/-- The final-path response of a run, when it reached one. -/
def finalOfRun (o : RunOut) : Option FinalResponse :=
  match o.result with
  | .ok (.final fr) => Option.some fr
  | _ => Option.none

/-- The per-file entry statuses of a batch run. -/
def batchEntryTags (o : BatchOut) : Option (List String) :=
  match o.result with
  | .ok br => Option.some (br.fileResults.map entryTag)
  | .error _ => Option.none

/-! ## Concrete environments and inputs for closed instances -/

/-- An events-only data frame (columns `event_name, location, date`). -/
def dfEvents : DataFrame :=
  { columns := ["event_name", "location", "date"]
    rows := [[("event_name", .str "Cheyenne Frontier Days"), ("location", .str "Cheyenne"),
      ("date", .str "2024-01-02")]] }

/-- A single-column predictions frame (column `prediction`). -/
def dfPred : DataFrame :=
  { columns := ["prediction"], rows := [[("prediction", .str "Win")]] }

/-- A single-column results frame (column `score`). -/
def dfScore : DataFrame :=
  { columns := ["score"], rows := [[("score", .num 88)]] }

/-- A benign environment: no configured API key, no duplicates, triage and
quality both pass, the CSV reader yields `dfEvents`, and every downstream
push fails (to exercise per-record error capture). -/
def testEnv : Env :=
  { gpuApiKey := ""
    now := "T0"
    readCsv := fun _ => .ok dfEvents
    readExcel := fun _ => .ok []
    decodeUtf8 := fun _ => .ok ""
    checkFileDuplicate := fun _ _ => { isDuplicate := false, hash := Option.some "h0" }
    assessFileRelevance := fun _ _ _ => { verdict := "relevant", action := "process" }
    checkDataDuplicate := fun _ _ => { isDuplicate := false, hash := Option.some "h1" }
    assessDataQuality := fun _ _ => { verdict := "good", action := "process" }
    pushPrediction := fun _ => .error "push failed"
    pushResult := fun _ => .error "push failed" }

/-- Like `testEnv` but the CSV reader yields the predictions frame. -/
def testEnvPred : Env := { testEnv with readCsv := fun _ => .ok dfPred }

/-- Like `testEnv` but file-relevance triage rejects everything. -/
def testEnvReject : Env :=
  { testEnv with assessFileRelevance := fun _ _ _ =>
      { verdict := "irrelevant", action := "reject" } }

def fileCsv : FileU := { content := [1, 2, 3], filename := "a.csv", contentType := "text/csv" }

/-! ## Claim theorems -/

/-- C10: the numeric coercion functions `_safe_int` / `_safe_float` are
total: missing (`None`/NaN) values yield null, any `float()` failure
(empty, unparseable, wrong type) is caught and yields null, and a value
`float()` accepts yields the parsed number (truncated toward zero for
`_safe_int`); no case raises. -/
theorem c10_safe_numeric_total (v : PyVal) :
    (isna v = true → safeInt v = Option.none ∧ safeFloat v = Option.none) ∧
    (∀ e, pyFloat v = .error e → safeInt v = Option.none ∧ safeFloat v = Option.none) ∧
    (∀ q, isna v = false → pyFloat v = .ok q →
      safeInt v = Option.some (pyTrunc q) ∧ safeFloat v = Option.some q) := by
  refine ⟨?_, ?_, ?_⟩
  · intro h
    simp [safeInt, safeIntBody, safeFloat, safeFloatBody, h]
  · intro e he
    by_cases h : isna v = true
    · simp [safeInt, safeIntBody, safeFloat, safeFloatBody, h]
    · rw [Bool.not_eq_true] at h
      simp [safeInt, safeIntBody, safeFloat, safeFloatBody, h, he]
  · intro q h hq
    simp [safeInt, safeIntBody, safeFloat, safeFloatBody, h, hq]

/-- Witness for C10 at concrete inputs: a float-like string parses (and
truncates), NaN and an unparseable string both yield null. -/
theorem c10_witness :
    safeInt (PyVal.str "3.7") = Option.some 3 ∧
    safeFloat (PyVal.str "3.7") = Option.some (mkRat 37 10) ∧
    safeInt PyVal.nan = Option.none ∧
    safeInt (PyVal.str "abc") = Option.none := by
  have h1 := (c10_safe_numeric_total (PyVal.str "3.7")).2.2 (mkRat 37 10) rfl (by rfl)
  have h2 := (c10_safe_numeric_total PyVal.nan).1 rfl
  have h3 := (c10_safe_numeric_total (PyVal.str "abc")).2.1
    (.valueError "could not convert string to float: abc") (by rfl)
  exact ⟨h1.1.trans (by decide), h1.2, h2.1, h3.1⟩

/-- C8 counterexample: for a missing/NaN date value the fallback is
`datetime.now().isoformat()` WITHOUT the trailing `'Z'` marker the claim
asserts (the `pd.isna` early return omits the `+ 'Z'`). -/
theorem c8_counterexample :
    parseDate "2024-05-05T12:00:00" PyVal.nan = "2024-05-05T12:00:00" ∧
    strEndsL (parseDate "2024-05-05T12:00:00" PyVal.nan) "Z" = false := by
  exact ⟨rfl, by decide⟩

/-- C8 as amended: `_parse_date` tries the ordered format list and never
raises; a string none of the formats match falls back to now `+ 'Z'`, as
does any non-missing non-string value, and a matched string yields the
parsed date in ISO form `+ 'Z'` — but a missing/NaN value falls back to
now WITHOUT the trailing `'Z'`. -/
theorem c8_parse_date_fallback (now : String) (v : PyVal) :
    (isna v = true → parseDate now v = now) ∧
    (isna v = false → ∃ p, parseDate now v = p ++ "Z") ∧
    (∀ s, v = PyVal.str s → tryDateFormats dateFormats s = Option.none →
      parseDate now v = now ++ "Z") ∧
    (∀ s d, v = PyVal.str s → tryDateFormats dateFormats s = Option.some d →
      parseDate now v = isoOfDate d ++ "Z") := by
  refine ⟨?_, ?_, ?_, ?_⟩
  · intro h
    simp [parseDate, h]
  · intro h
    cases v with
    | none => simp [isna] at h
    | nan => simp [isna] at h
    | str s =>
      cases hf : tryDateFormats dateFormats s with
      | none => exact ⟨now, by simp [parseDate, isna, hf]⟩
      | some d => exact ⟨isoOfDate d, by simp [parseDate, isna, hf]⟩
    | num q => exact ⟨now, by simp [parseDate, isna]⟩
  · intro s hs hf
    subst hs
    simp [parseDate, isna, hf]
  · intro s d hs hf
    subst hs
    simp [parseDate, isna, hf]

/-- Witness for C8 (amended) exercising each branch at concrete inputs. -/
theorem c8_witness :
    parseDate "T0" PyVal.nan = "T0" ∧
    (∃ p, parseDate "T0" (PyVal.num 3) = p ++ "Z") ∧
    parseDate "T0" (PyVal.str "junk") = "T0" ++ "Z" ∧
    parseDate "T0" (PyVal.str "2024-01-02") = isoOfDate ⟨2024, 1, 2⟩ ++ "Z" := by
  refine ⟨(c8_parse_date_fallback "T0" PyVal.nan).1 rfl,
    (c8_parse_date_fallback "T0" (PyVal.num 3)).2.1 rfl,
    (c8_parse_date_fallback "T0" (PyVal.str "junk")).2.2.1 "junk" rfl (by decide),
    (c8_parse_date_fallback "T0" (PyVal.str "2024-01-02")).2.2.2 "2024-01-02" ⟨2024, 1, 2⟩
      rfl (by decide)⟩

/-- C9: a tabular input whose only columns are
`{event_name, location, date}` matches no results-vocabulary and no
predictions-vocabulary column, so `process_csv` classifies it with the
events parser, whose output carries no prediction and no result records. -/
theorem c9_event_columns_classification (now fn : String) (df : DataFrame)
    (hne : df.columns ≠ [])
    (hcols : ∀ c ∈ df.columns, c = "event_name" ∨ c = "location" ∨ c = "date") :
    processCsv now df fn = parseEventsCsv now df fn ∧
    (processCsv now df fn).predictions = Option.none ∧
    (processCsv now df fn).results = Option.none := by
  have hres : isResultsCsv df = false := by
    rw [isResultsCsv]
    by_contra hcon
    rw [Bool.not_eq_false, List.any_eq_true] at hcon
    obtain ⟨c, hc, hpc⟩ := hcon
    rcases hcols c hc with h | h | h <;> subst h <;> exact absurd hpc (by decide)
  have hpred : isPredictionsCsv df = false := by
    rw [isPredictionsCsv]
    by_contra hcon
    rw [Bool.not_eq_false, List.any_eq_true] at hcon
    obtain ⟨c, hc, hpc⟩ := hcon
    rcases hcols c hc with h | h | h <;> subst h <;> exact absurd hpc (by decide)
  have hev : isEventsCsv df = true := by
    rw [isEventsCsv, List.any_eq_true]
    cases hcl : df.columns with
    | nil => exact absurd hcl hne
    | cons c cs =>
      refine ⟨c, List.mem_cons_self c cs, ?_⟩
      have hmem : c ∈ df.columns := by rw [hcl]; exact List.mem_cons_self c cs
      rcases hcols c hmem with h | h | h <;> subst h <;> decide
  have heq : processCsv now df fn = parseEventsCsv now df fn := by
    simp [processCsv, hres, hpred, hev]
  exact ⟨heq, by rw [heq]; rfl, by rw [heq]; rfl⟩

/-- Witness for C9 at a concrete events-only frame. -/
theorem c9_witness :
    (processCsv "T0" dfEvents "e.csv").predictions = Option.none ∧
    (processCsv "T0" dfEvents "e.csv").results = Option.none := by
  have h := c9_event_columns_classification "T0" "e.csv" dfEvents (by decide)
    (by intro c hc; fin_cases hc <;> simp)
  exact ⟨h.2.1, h.2.2⟩

/-- C5 counterexample: a one-sheet spreadsheet whose sheet has a results
column (`score`).  Parsed as a standalone tabular file the sheet is
classified results-kind and yields a result record, but `process_excel`
routes every sheet through the generic raw-records parser, so the merged
per-kind sequences stay empty — the claimed agreement with the standalone
Tabular classification fails. -/
theorem c5_counterexample :
    (processExcelSheets [("Sheet1", dfScore)] "f.xlsx").results ≠
      (processExcelSpec "T0" [("Sheet1", dfScore)] "f.xlsx").results := by
  decide

/-- C5 as amended: `process_excel` parses every sub-sheet with the generic
raw-records parser (`_parse_generic_csv`), regardless of column vocabulary;
since that parser emits none of the per-kind keys, the merge loop never
extends anything and the per-kind output sequences of every spreadsheet
file are empty (the concatenation property holds only vacuously). -/
theorem c5_excel_generic_parse (sheets : List (String × DataFrame)) (fn : String) :
    processExcelSheets sheets fn =
      { events := Option.some []
        riders := Option.some []
        predictions := Option.some []
        results := Option.some [] } := by
  have hfold : ∀ (l : List (String × DataFrame)) (acc : AllData),
      l.foldl (excelStep fn) acc = acc := by
    intro l
    induction l with
    | nil => intro acc; rfl
    | cons s rest ih =>
      intro acc
      rw [List.foldl_cons, show excelStep fn acc s = acc from rfl]
      exact ih acc
  simp [processExcelSheets, hfold]

/-- C6 counterexample: a file whose extension matches the pdf branch but
whose declared media type matches the csv parser.  The claim's
declared-type-first dispatch would route it to the csv parser; the source's
per-format chain routes it to the pdf parser. -/
theorem c6_counterexample :
    dispatch "report.pdf" "csv" = Option.some ParserKind.pdf ∧
    dispatchSpec "report.pdf" "csv" = Option.some ParserKind.csv ∧
    dispatch "report.pdf" "csv" ≠ dispatchSpec "report.pdf" "csv" := by
  exact ⟨by decide, by decide, by decide⟩

/-- C6 as amended: dispatch walks the formats in the fixed source order
(pdf, csv, excel, image, text); each format matches if the declared type
contains its token OR the filename carries its extension (image: declared
type only), and the first matching format wins.  Declared type does not
take global precedence: an earlier format's extension match beats a later
format's declared-type match. -/
theorem c6_dispatch_first_match (fn ft : String) :
    dispatch fn ft = parserRegistry.find? (fun k => fmtMatches k fn ft) := by
  cases h1 : (strContainsSub "pdf" (strLower ft) || strEndsL fn ".pdf") <;>
  cases h2 : (strContainsSub "csv" (strLower ft) || strEndsL fn ".csv") <;>
  cases h3 : (strContainsSub "excel" (strLower ft) ||
    (strEndsL fn ".xlsx" || strEndsL fn ".xls")) <;>
  cases h4 : (strContainsSub "jpg" (strLower ft) || strContainsSub "jpeg" (strLower ft) ||
    strContainsSub "png" (strLower ft)) <;>
  cases h5 : (strContainsSub "text" (strLower ft) || strEndsL fn ".txt") <;>
  simp [dispatch, parserRegistry, fmtMatches, typeMatches, extMatches, List.find?,
    h1, h2, h3, h4, h5]

/-- C7: when neither the declared type nor the extension matches any branch
of the dispatch chain, extraction raises the unsupported-format error
(`ValueError("Unsupported file type: ...")` — the spec's
`UnsupportedFormatError`), and a run that reached extraction surfaces it as
a pipeline-fatal HTTP 500 carrying the same message: no gated-rejection
response is produced and no review-queue entry is written. -/
theorem c7_unsupported_format_fatal (env : Env) (content : List Nat) (fn ft : String)
    (autoPush : Bool) (skipDedup : PyFlag) (skipTriage : Bool) (xApiKey : Option String)
    (queue : List ReviewEntry)
    (hAuth : ¬(env.gpuApiKey ≠ "" ∧ xApiKey ≠ Option.some env.gpuApiKey))
    (hd : (dedupResultOf env content fn skipDedup).isDuplicate = false)
    (ht : ((triageResultOf env fn content ft skipTriage).action == "reject") = false)
    (hdisp : dispatch fn ft = Option.none) :
    (ingest env content fn ft autoPush skipDedup skipTriage xApiKey queue).result =
      .error (.httpError 500 ("Unsupported file type: " ++ ft)) ∧
    (ingest env content fn ft autoPush skipDedup skipTriage xApiKey queue).queue = queue := by
  have hpf : processFile env content fn ft =
      .error (.valueError ("Unsupported file type: " ++ ft)) := by
    rw [processFile, hdisp]
  unfold ingest
  rw [if_neg hAuth]
  simp [ingestBody, hd, ht, hpf, errText]

/-- Witness for C7: a `.xyz` file with declared type `application/zip`. -/
theorem c7_witness :
    (ingest testEnv [] "a.xyz" "application/zip" true (.bool false) false
      Option.none []).result =
      .error (.httpError 500 ("Unsupported file type: " ++ "application/zip")) ∧
    (ingest testEnv [] "a.xyz" "application/zip" true (.bool false) false
      Option.none []).queue = [] := by
  exact c7_unsupported_format_fatal testEnv [] "a.xyz" "application/zip" true (.bool false)
    false Option.none [] (by simp [testEnv]) rfl rfl (by decide)

/-- Helper: under passing auth, no file duplicate, triage not rejecting,
successful extraction, no data duplicate and quality not rejecting, the run
ends in the final success path. -/
theorem ingest_reaches_final (env : Env) (content : List Nat) (fn ft : String)
    (autoPush : Bool) (skipDedup : PyFlag) (skipTriage : Bool) (xApiKey : Option String)
    (queue : List ReviewEntry) (pd : ProcessedDict)
    (hAuth : ¬(env.gpuApiKey ≠ "" ∧ xApiKey ≠ Option.some env.gpuApiKey))
    (hd : (dedupResultOf env content fn skipDedup).isDuplicate = false)
    (ht : ((triageResultOf env fn content ft skipTriage).action == "reject") = false)
    (hx : processFile env content fn ft = .ok pd)
    (hdd : (dataDedupResultOf env pd fn skipDedup false).isDuplicate = false)
    (hq : ((qualityResultOf env pd fn skipTriage).action == "reject") = false) :
    ingest env content fn ft autoPush skipDedup skipTriage xApiKey queue =
      finalOut env content fn ft autoPush skipDedup skipTriage queue pd := by
  have hbody : ingestBody env content fn ft autoPush skipDedup skipTriage queue =
      finalOut env content fn ft autoPush skipDedup skipTriage queue pd := by
    unfold ingestBody
    simp [hd, ht, hx, hdd, hq]
  unfold ingest
  rw [if_neg hAuth, hbody]
  rfl

/-- C1: every single-file ingestion that reaches the end of the pipeline
(past the duplicate and rejection short-circuits) derives its final status
by the fixed rule: `needs_review` whenever the triage action or the quality
action is `"review"` (a push may still have occurred), `success` exactly
when the quality action is `"process"` and auto-push was requested, and
`processed` otherwise (extraction completed, no push requested). -/
theorem c1_final_status_precedence (env : Env) (content : List Nat) (fn ft : String)
    (autoPush : Bool) (skipDedup : PyFlag) (skipTriage : Bool) (xApiKey : Option String)
    (queue : List ReviewEntry) (pd : ProcessedDict)
    (hAuth : ¬(env.gpuApiKey ≠ "" ∧ xApiKey ≠ Option.some env.gpuApiKey))
    (hd : (dedupResultOf env content fn skipDedup).isDuplicate = false)
    (ht : ((triageResultOf env fn content ft skipTriage).action == "reject") = false)
    (hx : processFile env content fn ft = .ok pd)
    (hdd : (dataDedupResultOf env pd fn skipDedup false).isDuplicate = false)
    (hq : ((qualityResultOf env pd fn skipTriage).action == "reject") = false) :
    ∃ fr : FinalResponse,
      (ingest env content fn ft autoPush skipDedup skipTriage xApiKey queue).result =
        .ok (.final fr) ∧
      fr.status =
        (if (qualityResultOf env pd fn skipTriage).action == "review" ||
            (triageResultOf env fn content ft skipTriage).action == "review" then
          "needs_review"
        else if (qualityResultOf env pd fn skipTriage).action == "process" && autoPush then
          "success"
        else "processed") := by
  rw [ingest_reaches_final env content fn ft autoPush skipDedup skipTriage xApiKey queue pd
    hAuth hd ht hx hdd hq]
  exact ⟨_, rfl, rfl⟩

/-- Witness for C1: a clean events CSV with auto-push ends in `success`. -/
theorem c1_witness :
    statusOfRun (ingest testEnv [1, 2, 3] "a.csv" "text/csv" true (.bool false) false
      Option.none []) = Option.some "success" := by
  obtain ⟨fr, h1, h2⟩ := c1_final_status_precedence testEnv [1, 2, 3] "a.csv" "text/csv"
    true (.bool false) false Option.none [] (processCsv "T0" dfEvents "a.csv")
    (by simp [testEnv]) rfl rfl rfl rfl rfl
  simp only [statusOfRun, h1]
  rw [respStatus, h2]
  decide

/-- C2: when auto-push runs (auto-push requested and quality action
`"process"`), the downstream push is invoked once per record of the
extracted `predictions` and `results` sequences: the outcome list has
exactly one entry per record, a failing prediction push at index `i` is
recorded there as an individual `status="error"` entry carrying the error
message (results likewise, after the prediction block), and the run still
returns a normal final response — sibling pushes and the pipeline are never
aborted, whatever the push functions do. -/
theorem c2_per_record_push_outcomes (env : Env) (content : List Nat) (fn ft : String)
    (skipDedup : PyFlag) (skipTriage : Bool) (xApiKey : Option String)
    (queue : List ReviewEntry) (pd : ProcessedDict)
    (hAuth : ¬(env.gpuApiKey ≠ "" ∧ xApiKey ≠ Option.some env.gpuApiKey))
    (hd : (dedupResultOf env content fn skipDedup).isDuplicate = false)
    (ht : ((triageResultOf env fn content ft skipTriage).action == "reject") = false)
    (hx : processFile env content fn ft = .ok pd)
    (hdd : (dataDedupResultOf env pd fn skipDedup false).isDuplicate = false)
    (hq : (qualityResultOf env pd fn skipTriage).action = "process") :
    ∃ fr : FinalResponse,
      (ingest env content fn ft true skipDedup skipTriage xApiKey queue).result =
        .ok (.final fr) ∧
      fr.pushResults = Option.some (pushAll env pd) ∧
      (pushAll env pd).length =
        (pd.predictions.getD []).length + (pd.results.getD []).length ∧
      (∀ i p e, (pd.predictions.getD []).get? i = Option.some p →
        env.pushPrediction p = .error e →
        (pushAll env pd).get? i = Option.some
          { type := "prediction", status := "error", error := Option.some e }) ∧
      (∀ i r e, (pd.results.getD []).get? i = Option.some r →
        env.pushResult r = .error e →
        (pushAll env pd).get? ((pd.predictions.getD []).length + i) = Option.some
          { type := "result", status := "error", error := Option.some e }) := by
  have hq' : ((qualityResultOf env pd fn skipTriage).action == "reject") = false := by
    rw [hq]; decide
  rw [ingest_reaches_final env content fn ft true skipDedup skipTriage xApiKey queue pd
    hAuth hd ht hx hdd hq']
  refine ⟨_, rfl, ?_, ?_, ?_, ?_⟩
  · show (if true then Option.some (if true && ((qualityResultOf env pd fn skipTriage).action
      == "process") then pushAll env pd else []) else Option.none) =
      Option.some (pushAll env pd)
    simp [hq]
  · cases hp : pd.predictions <;> cases hr : pd.results <;>
      simp [pushAll, hp, hr]
  · intro i p e hget hperr
    cases hp : pd.predictions with
    | none => rw [hp] at hget; simp at hget
    | some ps =>
      rw [hp] at hget
      simp only [Option.getD_some] at hget
      obtain ⟨hi, -⟩ := List.get?_eq_some.mp hget
      have hi' : i < (ps.map (mkPredOutcome env)).length := by
        simpa using hi
      simp only [pushAll, hp]
      rw [List.get?_append hi', List.get?_map, hget]
      simp [mkPredOutcome, hperr]
  · intro i r e hget hrerr
    cases hr : pd.results with
    | none => rw [hr] at hget; simp at hget
    | some rs =>
      rw [hr] at hget
      simp only [Option.getD_some] at hget
      cases hp : pd.predictions with
      | none =>
        simp only [pushAll, hp, hr]
        simp only [Option.getD_none, List.length_nil, Nat.zero_add, List.nil_append]
        rw [List.get?_map, hget]
        simp [mkResOutcome, hrerr]
      | some ps =>
        simp only [pushAll, hp, hr, Option.getD_some]
        have hlen : (ps.map (mkPredOutcome env)).length ≤ ps.length + i := by simp
        rw [List.get?_append_right hlen]
        have hidx : ps.length + i - (ps.map (mkPredOutcome env)).length = i := by simp
        rw [hidx, List.get?_map, hget]
        simp [mkResOutcome, hrerr]

/-- Witness for C2: a predictions CSV whose single downstream push fails;
the run still succeeds and records one error outcome. -/
theorem c2_witness :
    (finalOfRun (ingest testEnvPred [1, 2, 3] "p.csv" "text/csv" true (.bool false) false
      Option.none [])).map (fun fr => fr.pushResults) =
      Option.some (Option.some
        [{ type := "prediction", status := "error", error := Option.some "push failed" }]) := by
  obtain ⟨fr, h1, h2, h3, h4, h5⟩ := c2_per_record_push_outcomes testEnvPred [1, 2, 3]
    "p.csv" "text/csv" (.bool false) false Option.none []
    (processCsv "T0" dfPred "p.csv") (by simp [testEnvPred, testEnv]) rfl rfl rfl rfl rfl
  simp only [finalOfRun, h1, Option.map, h2]
  rfl

/-- Helper for C4: a single-file run invoked the way the batch loop invokes
it — with a non-empty string in `skip_deduplication` and the API key not
forwarded — consults neither dedup check, and (when no service key is
configured, so the inner auth check passes) consults triage exactly once. -/
theorem ingest_calls_apiKey (env : Env) (content : List Nat) (fn ft : String)
    (autoPush : Bool) (k : String) (queue : List ReviewEntry)
    (hk : (k == "") = false) :
    (EngineCall.fileDedup ∉
        (ingest env content fn ft autoPush (.str k) false Option.none queue).calls ∧
      EngineCall.dataDedup ∉
        (ingest env content fn ft autoPush (.str k) false Option.none queue).calls) ∧
    (env.gpuApiKey = "" →
      ((ingest env content fn ft autoPush (.str k) false Option.none queue).calls =
          [.triage] ∨
        (ingest env content fn ft autoPush (.str k) false Option.none queue).calls =
          [.triage, .quality])) := by
  have htr : (PyFlag.str k).truthy = true := by simp [PyFlag.truthy, hk]
  by_cases hg : env.gpuApiKey = ""
  · have hAuth : ¬(env.gpuApiKey ≠ "" ∧
        (Option.none : Option String) ≠ Option.some env.gpuApiKey) := fun h => h.1 hg
    have hd : (dedupResultOf env content fn (.str k)).isDuplicate = false := by
      simp [dedupResultOf, htr]
    have hcs : ∀ fileDup,
        fileDedupCalls (.str k) = [] ∧ dataDedupCalls (.str k) fileDup = [] := by
      intro fileDup
      constructor <;> simp [fileDedupCalls, dataDedupCalls, htr]
    have hcalls : (ingest env content fn ft autoPush (.str k) false Option.none queue).calls =
          [.triage] ∨
        (ingest env content fn ft autoPush (.str k) false Option.none queue).calls =
          [.triage, .quality] := by
      unfold ingest
      rw [if_neg hAuth]
      unfold ingestBody
      simp only [hd, Bool.false_eq_true, if_false, (hcs false).1, (hcs false).2]
      cases hta : ((triageResultOf env fn content ft false).action == "reject") with
      | true => simp [triageCalls]
      | false =>
        simp only [Bool.false_eq_true, if_false]
        cases hpf : processFile env content fn ft with
        | error e => simp [triageCalls]
        | ok pd =>
          have hdd : (dataDedupResultOf env pd fn (.str k) false).isDuplicate = false := by
            simp [dataDedupResultOf, htr]
          simp only [hdd, Bool.false_eq_true, if_false]
          cases hqa : ((qualityResultOf env pd fn false).action == "reject") with
          | true => simp [hdd, triageCalls, qualityCalls]
          | false =>
            simp only [Bool.false_eq_true, if_false]
            simp [hd, hdd, finalOut, triageCalls, qualityCalls, (hcs false).1, (hcs false).2]
    constructor
    · rcases hcalls with h | h <;> rw [h] <;> exact ⟨by decide, by decide⟩
    · intro _; exact hcalls
  · have hAuth : env.gpuApiKey ≠ "" ∧
        (Option.none : Option String) ≠ Option.some env.gpuApiKey :=
      ⟨hg, fun h => Option.noConfusion h⟩
    constructor
    · unfold ingest
      rw [if_pos hAuth]
      exact ⟨by simp, by simp⟩
    · intro h; exact absurd h hg

/-- Helper for C4: each batch-loop step appends the sub-run's calls. -/
theorem batchStep_calls (env : Env) (autoPush : Bool) (xApiKey : Option String)
    (acc : BatchAcc) (f : FileU) :
    (batchStep env autoPush xApiKey acc f).calls =
      acc.calls ++ (ingest env f.content f.filename f.contentType autoPush
        (skipFlagOf xApiKey) false Option.none acc.queue).calls := by
  simp only [batchStep]
  cases hres : (ingest env f.content f.filename f.contentType autoPush
      (skipFlagOf xApiKey) false Option.none acc.queue).result with
  | error e => rfl
  | ok r => cases r <;> rfl

/-- Helper for C4: the fold over the batch's files preserves dedup-free
call traces and counts one triage call per file when auth passes. -/
theorem batch_fold_calls (env : Env) (autoPush : Bool) (k : String)
    (hk : (k == "") = false) (files : List FileU) :
    ∀ acc : BatchAcc,
      ((EngineCall.fileDedup ∉ acc.calls ∧ EngineCall.dataDedup ∉ acc.calls) →
        (EngineCall.fileDedup ∉
            (files.foldl (batchStep env autoPush (Option.some k)) acc).calls ∧
          EngineCall.dataDedup ∉
            (files.foldl (batchStep env autoPush (Option.some k)) acc).calls)) ∧
      (env.gpuApiKey = "" →
        (files.foldl (batchStep env autoPush (Option.some k)) acc).calls.count
            EngineCall.triage =
          acc.calls.count EngineCall.triage + files.length) := by
  induction files with
  | nil => intro acc; exact ⟨fun h => h, fun _ => rfl⟩
  | cons f rest ih =>
    intro acc
    rw [List.foldl_cons]
    have hstep := batchStep_calls env autoPush (Option.some k) acc f
    have hfile := ingest_calls_apiKey env f.content f.filename f.contentType autoPush k
      acc.queue hk
    constructor
    · intro hacc
      refine (ih (batchStep env autoPush (Option.some k) acc f)).1 ?_
      rw [hstep]
      constructor
      · rw [List.mem_append]
        rintro (h | h)
        · exact hacc.1 h
        · exact hfile.1.1 h
      · rw [List.mem_append]
        rintro (h | h)
        · exact hacc.2 h
        · exact hfile.1.2 h
    · intro hg
      have hone : (ingest env f.content f.filename f.contentType autoPush (.str k) false
          Option.none acc.queue).calls.count EngineCall.triage = 1 := by
        rcases hfile.2 hg with h | h <;> rw [h] <;> decide
      have := (ih (batchStep env autoPush (Option.some k) acc f)).2 hg
      rw [this, hstep]
      show (acc.calls ++ (ingest env f.content f.filename f.contentType autoPush
        (skipFlagOf (Option.some k)) false Option.none acc.queue).calls).count
          EngineCall.triage + rest.length =
        acc.calls.count EngineCall.triage + (rest.length + 1)
      rw [List.count_append]
      show acc.calls.count EngineCall.triage + (ingest env f.content f.filename f.contentType
        autoPush (.str k) false Option.none acc.queue).calls.count EngineCall.triage +
          rest.length = acc.calls.count EngineCall.triage + (rest.length + 1)
      rw [hone]
      omega

/-- C4: the batch endpoint passes the caller's API-key header positionally
into `skip_deduplication`, so a batch carrying a non-empty API key never
consults the file-level or data-level dedup check for any file; and since
the batch loop cannot set `skip_triage`, triage runs exactly once per file
whenever the inner pipeline is reached (no service key configured). -/
theorem c4_batch_api_key_skips_dedup (env : Env) (files : List FileU) (autoPush : Bool)
    (k : String) (queue : List ReviewEntry) (hk : k ≠ "") :
    EngineCall.fileDedup ∉ (ingestBatch env files autoPush (Option.some k) queue).calls ∧
    EngineCall.dataDedup ∉ (ingestBatch env files autoPush (Option.some k) queue).calls ∧
    (env.gpuApiKey = "" →
      (ingestBatch env files autoPush (Option.some k) queue).calls.count
        EngineCall.triage = files.length) := by
  have hk' : (k == "") = false := by
    rw [beq_eq_false_iff_ne]
    exact hk
  by_cases hauth : env.gpuApiKey ≠ "" ∧ Option.some k ≠ Option.some env.gpuApiKey
  · unfold ingestBatch
    rw [if_pos hauth]
    exact ⟨by simp, by simp, fun hg => absurd hg hauth.1⟩
  · unfold ingestBatch
    rw [if_neg hauth]
    have hfold := batch_fold_calls env autoPush k hk' files ⟨[], {}, queue, []⟩
    have hmem := hfold.1 ⟨by simp, by simp⟩
    exact ⟨hmem.1, hmem.2, fun hg => by
      have := hfold.2 hg
      simpa using this⟩

/-- Witness for C4: a one-file batch carrying API key `"secret"` against a
service with no configured key: no dedup calls, one triage call. -/
theorem c4_witness :
    EngineCall.fileDedup ∉
      (ingestBatch testEnv [fileCsv] true (Option.some "secret") []).calls ∧
    (ingestBatch testEnv [fileCsv] true (Option.some "secret") []).calls.count
      EngineCall.triage = 1 := by
  have h := c4_batch_api_key_skips_dedup testEnv [fileCsv] true "secret" [] (by decide)
  exact ⟨h.1, h.2.2 rfl⟩

/-- C3 (code bug): a file whose single run ends in exactly one terminal
outcome (`rejected`) nevertheless surfaces TWO entries in the batch's
per-file results: the loop appends a `status="success"` wrapper around the
rejection dict, then `result["processed_data"]` raises `KeyError` (the
duplicate/rejected dicts lack that key) and the per-file `except` appends a
second, `status="error"` entry for the same file. -/
theorem c3_batch_double_entry :
    batchEntryTags (ingestBatch testEnvReject [fileCsv] true Option.none []) =
      Option.some ["success", "error"] ∧
    statusOfRun (ingest testEnvReject fileCsv.content fileCsv.filename fileCsv.contentType
      true (skipFlagOf Option.none) false Option.none []) = Option.some "rejected" := by
  exact ⟨rfl, rfl⟩

end Rodeo
